import Mathlib

/-!
Shallow embedding of `property_poster.py` (RealEstateSync): the multi-site
property-posting orchestration engine.  Browser/driver behaviour is modelled
by oracle environments: each driver call that can fail or vary is a field of
an environment record, and the Python control flow is translated directly
over those fields.  Exceptions become `Except String` values carrying the
exception text (Python `str(e)`); time advances only through explicit
`time.sleep` calls; every driver interaction emits an event into a trace so
that "no browser interaction" claims are about an explicit trace.
-/

set_option autoImplicit false

namespace RealEstateSync

/-! ### Data model -/

/-- Mirror of the `PropertyDetails` dataclass (src lines 47-69).  Only
`images` affects control flow; the rest are carried as data (`area` is a
float in the source and is carried here as its rendered text, which is all
the adapters use via `str(...)`). -/
structure PropertyDetails where
  title : String
  description : String
  price : String
  bedrooms : Int
  bathrooms : Int
  area : String
  location : String
  city : String
  address : String
  property_type : String
  features : List String
  contact_phone : String
  contact_email : String
  images : List String
deriving Repr, DecidableEq

/-- Credentials for one site: the Python `Dict[str, str]` modelled as an
association list of key/value pairs. -/
def Credentials : Type := List (String × String)

/-- Membership test `k in credentials` of the Python dict. -/
def Credentials.hasKey (c : Credentials) (k : String) : Bool :=
  c.any (fun p => p.1 == k)

/-- The Python guard `not credentials or "username" not in credentials or
"password" not in credentials` from the `_login_to_*` helpers
(src lines 351, 464, 585). -/
def Credentials.missing (c : Credentials) : Bool :=
  c.isEmpty || !(c.hasKey "username") || !(c.hasKey "password")

/-- Mirror of the `result` dictionary created at the top of
`PropertyPoster.post_listing` (src lines 249-254): exactly the four keys
`site`, `success`, `message`, `listing_url`. -/
structure PostResult where
  site : String
  success : Bool
  message : String
  listing_url : Option String
deriving Repr, DecidableEq

/-! ### `safe_click` (src lines 171-192)

The element's behaviour is an oracle `Nat → ClickOutcome` giving, for each
attempt index, whether `element.click()` succeeds or raises
`ElementNotInteractableException` / `WebDriverException` (the exception
types named in the `except` clause; all Selenium interaction errors are
subclasses of `WebDriverException`). -/

/-- Outcome of one `element.click()` call. -/
inductive ClickOutcome where
  | success
  | notInteractable
  | webDriverError
deriving Repr, DecidableEq

/-- The `for attempt in range(max_attempts)` loop of `safe_click`, from
attempt index `attempt` with `remaining` iterations left.  Returns
(result, clicks attempted, sleeps performed); the result is `none` only if
the loop falls off the end (Python would return `None`), which cannot
happen when started with `remaining > 0`. -/
def safe_click_loop (elem : Nat → ClickOutcome) :
    Nat → Nat → Option Bool × Nat × Nat
  | _, 0 => (none, 0, 0)
  | attempt, r + 1 =>
    match elem attempt with
    | .success => (some true, 1, 0)
    | _ =>
      if r = 0 then
        (some false, 1, 0)
      else
        let rest := safe_click_loop elem (attempt + 1) r
        (rest.1, rest.2.1 + 1, rest.2.2 + 1)

/-- `PropertyPoster.safe_click` with `max_attempts = 3`
(src lines 171-192). -/
def safe_click (elem : Nat → ClickOutcome) : Option Bool × Nat × Nat :=
  safe_click_loop elem 0 3

/-! ### `handle_captcha` (src lines 194-235)

Environment: each of the three captcha indicators (`#captcha`,
`.g-recaptcha`, the recaptcha iframe, in that list order) has an initial
state — absent (`find_element` raises `NoSuchElementException`), present
but not displayed, or displayed — and, for the polling loop, a
presence-over-poll-iteration oracle.  Time advances 2 units per
`time.sleep(2)`; `find_element` itself is instantaneous in the model. -/

/-- Initial state of one captcha indicator at the scan. -/
inductive IndicatorState where
  | absent
  | hidden
  | displayed
deriving Repr, DecidableEq

/-- Oracle for one `handle_captcha` invocation. -/
structure CaptchaEnv where
  initial : Fin 3 → IndicatorState
  presentAt : Fin 3 → Nat → Bool

/-- Events a `handle_captcha` run performs against the driver/operator. -/
inductive CEvent where
  | check (i : Fin 3)
  | promptShown
  | poll (i : Fin 3)
  | sleep2
deriving Repr, DecidableEq

/-- The inner `while time.time() - start_time < timeout` loop
(src lines 221-228): at poll iteration `k` (elapsed time `2*k`), re-find
the committed indicator `i`; if found, sleep 2 and continue, if
`NoSuchElementException`, return `True`; when the deadline is reached the
loop exits and the function returns `False` (src lines 230-231).
Returns (result, elapsed time at return, events). -/
def captcha_wait (present : Nat → Bool) (i : Fin 3) (timeout : Nat)
    (k : Nat) : Bool × Nat × List CEvent :=
  if h : 2 * k < timeout then
    if present k then
      let rest := captcha_wait present i timeout (k + 1)
      (rest.1, rest.2.1, CEvent.poll i :: CEvent.sleep2 :: rest.2.2)
    else
      (true, 2 * k, [CEvent.poll i])
  else
    (false, 2 * k, [])
termination_by timeout - 2 * k
decreasing_by omega

/-- The `for by, value in captcha_indicators` scan (src lines 211-233):
absent indicators raise `NoSuchElementException` which is passed over,
present-but-hidden indicators fail the `is_displayed()` test and are passed
over, and the first displayed indicator triggers the operator prompt and
the wait loop, whose result is returned directly.  Returns
(result, committed indicator, elapsed time, events). -/
def handle_captcha_go (env : CaptchaEnv) (timeout : Nat) :
    List (Fin 3) → Bool × Option (Fin 3) × Nat × List CEvent
  | [] => (true, none, 0, [])
  | i :: rest =>
    match env.initial i with
    | .displayed =>
      let w := captcha_wait (env.presentAt i) i timeout 0
      (w.1, some i, w.2.1, CEvent.check i :: CEvent.promptShown :: w.2.2)
    | _ =>
      let r := handle_captcha_go env timeout rest
      (r.1, r.2.1, r.2.2.1, CEvent.check i :: r.2.2.2)

/-- `PropertyPoster.handle_captcha` (src lines 194-235); the indicator list
is `[(By.ID, "captcha"), (By.CSS_SELECTOR, ".g-recaptcha"),
(By.XPATH, recaptcha-iframe)]` in this order, indexed 0, 1, 2. -/
def handle_captcha (env : CaptchaEnv) (timeout : Nat) :
    Bool × Option (Fin 3) × Nat × List CEvent :=
  handle_captcha_go env timeout [0, 1, 2]

/-! ### Site adapters (src lines 276-613) and `post_listing` (237-274)

Each adapter is a straight-line sequence of driver operations grouped by
shared exception handler: every group is one oracle field of type
`Except String _` whose `.error e` case models a raised exception with
text `e = str(exception)`.  Any raise inside the adapter body lands in the
adapter's own `except Exception` clause (src 344-346 / 457-459 / 578-580),
which sets `message = "Error: " + str(e)`.  Exceptions raised inside the
`_login_to_*` helpers are caught by the helper's own handler and become a
`False` login result (src 377-379 etc.), never an `"Error: ..."` message.
Every driver interaction appends an event to the run's trace. -/

/-- Events one adapter run performs against the browser. -/
inductive BEvent where
  | navigate (url : String)
  | loginInteract
  | categoryClick
  | fillFields
  | upload (i : Nat)
  | captchaCheck
  | submitClick
  | confirmWait
deriving Repr, DecidableEq

/-- Oracle for one adapter invocation.  Fields group the source's driver
calls by their enclosing exception handler:
`navLogin` = the initial `driver.get(<login url>)`;
`loginSteps` = the field fills and submit click inside `_login_to_*`;
`loginVerified` = whether the post-login logout link appears within 10
time units (src 367-375);
`navPost` = `driver.get(<posting url>)`;
`categoryStep` = the category/sub-category selection clicks (njoftime: one,
merrjep: two plus the location autocomplete, indomio: none);
`fillFields` = the clear/send_keys sequence over the form fields;
`uploadOutcome i` = the upload of image index `i` (each caught separately,
src 312-317 / 425-430 / 546-551);
`captcha` = the `handle_captcha()` call (`.ok b` its boolean result,
`.error` a raise escaping it);
`submitStep` = `wait_for_element` of the submit button (`safe_click` itself
never raises);
`confirm` = the 15-time-unit confirmation wait (`.ok true` indicator seen,
`.ok false` its `TimeoutException`, `.error` another raise);
`urlExtract` = the listing-URL recovery after a confirmed success
(`find_elements`/`get_attribute` for njoftime and merrjep, `current_url`
for indomio). -/
structure SiteEnv where
  navLogin : Except String Unit
  loginSteps : Except String Unit
  loginVerified : Bool
  navPost : Except String Unit
  categoryStep : Except String Unit
  fillFields : Except String Unit
  uploadOutcome : Nat → Except String Unit
  captcha : Except String Bool
  submitStep : Except String Unit
  confirm : Except String Bool
  urlExtract : Except String (Option String)

/-- The `_login_to_njoftime` / `_login_to_merrjep` / `_login_to_indomio`
helpers (src 348-379, 461-492, 582-613): identical bodies.  Missing
credentials return `False` before touching any element; any exception in
the field fills is caught by the helper and returns `False`; otherwise the
result is the login-verification wait.  Returns (result, events). -/
def login_helper (env : SiteEnv) (credentials : Credentials) :
    Bool × List BEvent :=
  if credentials.missing then
    (false, [])
  else
    match env.loginSteps with
    | .error _ => (false, [BEvent.loginInteract])
    | .ok _ => (env.loginVerified, [BEvent.loginInteract])

/-- The image-upload loop `for image_path in images[:cap]`
(src 310-317, 423-430, 544-551), from image index `i`: each iteration
attempts one upload; an exception is caught inside the loop body, logged,
and the loop continues with the next image.  Returns
(events, attempts made). -/
def upload_loop (outcome : Nat → Except String Unit) :
    Nat → List String → List BEvent × Nat
  | _, [] => ([], 0)
  | i, _ :: rest =>
    let r := upload_loop outcome (i + 1) rest
    match outcome i with
    | .ok _ => (BEvent.upload i :: r.1, r.2 + 1)
    | .error _ => (BEvent.upload i :: r.1, r.2 + 1)

/-- The shared tail of the three adapter bodies from form fill onward:
image upload (capped at `cap`), captcha handling, submit, confirmation
wait, and listing-URL extraction; `r0` is the result record as handed in
by `post_listing`, `ev` the trace so far.  On a confirmed success the
source first sets `success = True` and
`message = "Listing posted successfully"` (src 333-334) and only then runs
the URL extraction, so an exception there reaches the outer handler with
`success` already `True` and overwrites only `message` (src 344-345). -/
def adapter_tail (env : SiteEnv) (d : PropertyDetails) (cap : Nat)
    (r0 : PostResult) (ev : List BEvent) : PostResult × List BEvent :=
  let up := upload_loop env.uploadOutcome 0 (d.images.take cap)
  let ev := ev ++ up.1 ++ [BEvent.captchaCheck]
  match env.captcha with
  | .error e => ({ r0 with message := "Error: " ++ e }, ev)
  | .ok false => ({ r0 with message := "Captcha handling failed" }, ev)
  | .ok true =>
    let ev := ev ++ [BEvent.submitClick]
    match env.submitStep with
    | .error e => ({ r0 with message := "Error: " ++ e }, ev)
    | .ok _ =>
      let ev := ev ++ [BEvent.confirmWait]
      match env.confirm with
      | .error e => ({ r0 with message := "Error: " ++ e }, ev)
      | .ok false =>
        ({ r0 with message := "Could not confirm successful posting" }, ev)
      | .ok true =>
        match env.urlExtract with
        | .error e =>
          ({ r0 with success := true, message := "Error: " ++ e }, ev)
        | .ok u =>
          ({ r0 with success := true,
                     message := "Listing posted successfully",
                     listing_url := u }, ev)

/-- `PropertyPoster._post_to_njoftime_com` (src 276-346): navigate to the
login page, log in, navigate to the posting form, click the `Shtepi`
category link, fill title/description/price, then the shared tail with an
image cap of 5. -/
def post_to_njoftime_com (env : SiteEnv) (d : PropertyDetails)
    (credentials : Credentials) (r0 : PostResult) :
    PostResult × List BEvent :=
  let ev := [BEvent.navigate "https://njoftime.com/login"]
  match env.navLogin with
  | .error e => ({ r0 with message := "Error: " ++ e }, ev)
  | .ok _ =>
    let lg := login_helper env credentials
    let ev := ev ++ lg.2
    if !lg.1 then
      ({ r0 with message := "Login failed" }, ev)
    else
      let ev := ev ++ [BEvent.navigate "https://njoftime.com/post-ad"]
      match env.navPost with
      | .error e => ({ r0 with message := "Error: " ++ e }, ev)
      | .ok _ =>
        let ev := ev ++ [BEvent.categoryClick]
        match env.categoryStep with
        | .error e => ({ r0 with message := "Error: " ++ e }, ev)
        | .ok _ =>
          let ev := ev ++ [BEvent.fillFields]
          match env.fillFields with
          | .error e => ({ r0 with message := "Error: " ++ e }, ev)
          | .ok _ => adapter_tail env d 5 r0 ev

/-- `PropertyPoster._post_to_merrjep_al` (src 381-459): same shape as the
njoftime adapter; the category step covers the two category clicks and the
location-autocomplete selection, and the image cap is 10. -/
def post_to_merrjep_al (env : SiteEnv) (d : PropertyDetails)
    (credentials : Credentials) (r0 : PostResult) :
    PostResult × List BEvent :=
  let ev := [BEvent.navigate "https://www.merrjep.al/login"]
  match env.navLogin with
  | .error e => ({ r0 with message := "Error: " ++ e }, ev)
  | .ok _ =>
    let lg := login_helper env credentials
    let ev := ev ++ lg.2
    if !lg.1 then
      ({ r0 with message := "Login failed" }, ev)
    else
      let ev := ev ++ [BEvent.navigate "https://www.merrjep.al/post-ad"]
      match env.navPost with
      | .error e => ({ r0 with message := "Error: " ++ e }, ev)
      | .ok _ =>
        let ev := ev ++ [BEvent.categoryClick]
        match env.categoryStep with
        | .error e => ({ r0 with message := "Error: " ++ e }, ev)
        | .ok _ =>
          let ev := ev ++ [BEvent.fillFields]
          match env.fillFields with
          | .error e => ({ r0 with message := "Error: " ++ e }, ev)
          | .ok _ => adapter_tail env d 10 r0 ev

/-- `PropertyPoster._post_to_indomio_al` (src 494-580): no category step
(the posting page is reached directly), the field fill additionally covers
property type, bedrooms, bathrooms and area, and the image cap is 15. -/
def post_to_indomio_al (env : SiteEnv) (d : PropertyDetails)
    (credentials : Credentials) (r0 : PostResult) :
    PostResult × List BEvent :=
  let ev := [BEvent.navigate "https://indomio.al/login"]
  match env.navLogin with
  | .error e => ({ r0 with message := "Error: " ++ e }, ev)
  | .ok _ =>
    let lg := login_helper env credentials
    let ev := ev ++ lg.2
    if !lg.1 then
      ({ r0 with message := "Login failed" }, ev)
    else
      let ev := ev ++
        [BEvent.navigate "https://indomio.al/user/properties/add"]
      match env.navPost with
      | .error e => ({ r0 with message := "Error: " ++ e }, ev)
      | .ok _ =>
        let ev := ev ++ [BEvent.fillFields]
        match env.fillFields with
        | .error e => ({ r0 with message := "Error: " ++ e }, ev)
        | .ok _ => adapter_tail env d 15 r0 ev

/-- `PropertyPoster.post_listing` (src 237-274): build the fresh result
record with the four keys, dispatch on the site identifier, and for an
unregistered site set `message = "Unsupported site: " + site` without any
browser interaction.  The adapters catch every exception themselves, so
within the modelled outcome alphabet the orchestrator-level
`except Exception` clause (src 271-274) is never reached and the function
is total. -/
def post_listing (env : SiteEnv) (site : String) (d : PropertyDetails)
    (credentials : Credentials) : PostResult × List BEvent :=
  let r0 : PostResult :=
    { site := site, success := false, message := "", listing_url := none }
  if site = "njoftime.com" then
    post_to_njoftime_com env d credentials r0
  else if site = "merrjep.al" then
    post_to_merrjep_al env d credentials r0
  else if site = "indomio.al" then
    post_to_indomio_al env d credentials r0
  else
    ({ r0 with message := "Unsupported site: " ++ site }, [])

/-- The per-site loop of `main` (src 662-675): one `post_listing` call per
requested site, in the caller-supplied order, collecting every result; no
result aborts the loop. -/
def postAll (envOf : String → SiteEnv) (credsOf : String → Credentials)
    (d : PropertyDetails) (sites : List String) : List PostResult :=
  sites.map (fun s => (post_listing (envOf s) s d (credsOf s)).1)

/-! ### Session manager: `__enter__` / `__exit__` and the `with` block
(src 88-125, 647-696)

`__enter__` starts the driver, assigns `self.driver`, then maximizes the
window and installs the default wait; a `WebDriverException` anywhere in
this is logged and re-raised (src 117-119).  `__exit__` quits the driver
when `self.driver` is set.  `main` uses a `with PropertyPoster(...)` block:
per Python semantics `__exit__` runs whenever the block is entered — that
is, whenever `__enter__` returned normally — and does not run when
`__enter__` itself raised. -/

/-- Oracle for one session: the browser kind requested and the outcomes of
the driver-start call and of `maximize_window()`. -/
structure SessionEnv where
  browser : String
  driverStart : Except String Unit
  maximize : Except String Unit

/-- Session lifecycle events. -/
inductive SEvent where
  | driverStarted
  | driverQuit
deriving Repr, DecidableEq

/-- `PropertyPoster.__enter__` (src 88-119).  Returns
(outcome, driver assigned, events): `self.driver` is assigned as soon as
the driver-start call returns (src 100 / 107), before `maximize_window()`
(src 112), so a raise there propagates with the driver already running. -/
def poster_enter (env : SessionEnv) :
    Except String Unit × Bool × List SEvent :=
  if env.browser = "chrome" ∨ env.browser = "firefox" then
    match env.driverStart with
    | .error e => (.error e, false, [])
    | .ok _ =>
      match env.maximize with
      | .error e => (.error e, true, [SEvent.driverStarted])
      | .ok _ => (.ok (), true, [SEvent.driverStarted])
  else
    (.error ("Unsupported browser: " ++ env.browser), false, [])

/-- `PropertyPoster.__exit__` (src 121-125): quit the driver iff
`self.driver` is set. -/
def poster_exit (driverSet : Bool) : List SEvent :=
  if driverSet then [SEvent.driverQuit] else []

/-- The `with PropertyPoster(...) as poster:` block of `main`
(src 648-692) under Python's with-statement semantics: if `__enter__`
raises, the block body and `__exit__` are skipped and the exception
propagates (to `main`'s `except Exception`, src 694); otherwise the body
runs and `__exit__` runs on every exit from the body, normal or
exceptional.  Returns (outcome, events). -/
def with_poster (env : SessionEnv) (body : Except String Unit) :
    Except String Unit × List SEvent :=
  let en := poster_enter env
  match en.1 with
  | .error e => (.error e, en.2.2)
  | .ok _ =>
    match body with
    | .error e => (.error e, en.2.2 ++ poster_exit en.2.1)
    | .ok _ => (.ok (), en.2.2 ++ poster_exit en.2.1)

/-! ### Concrete sample values and small accessors used by the theorems -/

/-- Number of image-upload events in a trace. -/
def countUploads (ev : List BEvent) : Nat :=
  ev.countP fun e =>
    match e with
    | BEvent.upload _ => true
    | _ => false

/-- The result record an adapter produces when a step raises with text `e`
and the outer handler formats it (src 344-345 etc.). -/
def errResult (site e : String) : PostResult :=
  { site := site, success := false, message := "Error: " ++ e,
    listing_url := none }

/-- Sample listing (the spec's end-to-end scenario listing, completed). -/
def sampleDetails : PropertyDetails :=
  { title := "Test Flat", description := "Spacious flat", price := "50000",
    bedrooms := 2, bathrooms := 1, area := "85.5", location := "Tirana",
    city := "Tirana", address := "Rruga 1", property_type := "Apartment",
    features := [], contact_phone := "", contact_email := "",
    images := ["a.jpg", "b.jpg"] }

/-- Sample complete credentials. -/
def sampleCreds : Credentials := [("username", "u"), ("password", "p")]

/-- An environment in which every driver operation succeeds. -/
def okEnv : SiteEnv :=
  { navLogin := .ok (), loginSteps := .ok (), loginVerified := true,
    navPost := .ok (), categoryStep := .ok (), fillFields := .ok (),
    uploadOutcome := fun _ => .ok (), captcha := .ok true,
    submitStep := .ok (), confirm := .ok true,
    urlExtract := .ok (some "https://njoftime.com/listing/123") }

/-- A run that reaches a confirmed success and then crashes while
recovering the listing URL (src 337-339 raising after src 333-334 already
set `success = True`). -/
def urlCrashEnv : SiteEnv :=
  { okEnv with urlExtract := .error "connection lost" }

/-- Same late-crash shape with a different driver error, used against the
indomio adapter (src 571 raising after src 567-568). -/
def urlCrashEnv2 : SiteEnv :=
  { okEnv with urlExtract := .error "stale element reference" }

/-- A session whose driver starts but whose `maximize_window()` call
(src 112) raises a `WebDriverException`. -/
def leakEnv : SessionEnv :=
  { browser := "chrome", driverStart := .ok (),
    maximize := .error "maximize failed" }

/-- The indicator-check events the `handle_captcha` scan performs up to
and including its commitment to indicator `i`. -/
def checksUpTo : Fin 3 → List CEvent
  | ⟨0, _⟩ => [CEvent.check 0]
  | ⟨1, _⟩ => [CEvent.check 0, CEvent.check 1]
  | ⟨2, _⟩ => [CEvent.check 0, CEvent.check 1, CEvent.check 2]
  | ⟨n + 3, h⟩ => absurd h (by omega)

/-- A page with all three captcha indicators present but hidden. -/
def capEnvNone : CaptchaEnv :=
  { initial := fun _ => IndicatorState.hidden,
    presentAt := fun _ _ => true }

/-- A page whose first indicator is displayed and disappears at the third
polling iteration. -/
def capEnvClears : CaptchaEnv :=
  { initial := fun i =>
      if i = 0 then IndicatorState.displayed else IndicatorState.hidden,
    presentAt := fun _ k => decide (k < 3) }

/-- A page whose first indicator is displayed and never disappears. -/
def capEnvStuck : CaptchaEnv :=
  { initial := fun _ => IndicatorState.displayed,
    presentAt := fun _ _ => true }

/-- A page with all three indicators displayed, where the first one
disappears at the third polling iteration and the other two never do. -/
def capEnvBoth : CaptchaEnv :=
  { initial := fun _ => IndicatorState.displayed,
    presentAt := fun i k => if i = 0 then decide (k < 3) else true }

/-! ### Theorems -/

/-- C1: for every site identifier not in the registry
{njoftime.com, merrjep.al, indomio.al}, `post_listing` returns a result
with `success = false` and message exactly `"Unsupported site: <id>"`, and
performs no browser interaction for that entry (empty trace). -/
theorem unsupported_site_short_circuits (env : SiteEnv)
    (d : PropertyDetails) (c : Credentials) (site : String)
    (h1 : site ≠ "njoftime.com") (h2 : site ≠ "merrjep.al")
    (h3 : site ≠ "indomio.al") :
    post_listing env site d c =
      ({ site := site, success := false,
         message := "Unsupported site: " ++ site, listing_url := none },
       []) := by
  simp [post_listing, h1, h2, h3]

/-- Witness for C1 at the spec scenario's unknown site `unknown.al`. -/
theorem unsupported_site_short_circuits_witness :
    post_listing okEnv "unknown.al" sampleDetails sampleCreds =
      ({ site := "unknown.al", success := false,
         message := "Unsupported site: unknown.al", listing_url := none },
       []) :=
  unsupported_site_short_circuits okEnv sampleDetails sampleCreds
    "unknown.al" (by decide) (by decide) (by decide)

/-- C3: `safe_click` makes at most 3 click attempts and always returns a
boolean (never falls through, i.e. never raises within the modelled
error alphabet); on an element whose click always fails with an
interaction or driver error it returns `false` after exactly 3 attempts
with a 1-time-unit sleep between consecutive attempts (2 sleeps); on a
first-attempt success it returns `true` immediately after 1 attempt with
no sleeping. -/
theorem safe_click_spec (elem : Nat → ClickOutcome) :
    ((safe_click elem).2.1 ≤ 3 ∧ ((safe_click elem).1).isSome = true)
    ∧ ((∀ i, elem i ≠ ClickOutcome.success) →
        safe_click elem = (some false, 3, 2))
    ∧ (elem 0 = ClickOutcome.success →
        safe_click elem = (some true, 1, 0)) := by
  refine ⟨?_, ?_, ?_⟩
  · rcases e0 : elem 0 <;> rcases e1 : elem 1 <;> rcases e2 : elem 2 <;>
      simp [safe_click, safe_click_loop, e0, e1, e2]
  · intro h
    rcases e0 : elem 0 with _ | _ | _ <;>
      rcases e1 : elem 1 with _ | _ | _ <;>
      rcases e2 : elem 2 with _ | _ | _ <;>
      first
        | exact absurd e0 (h 0)
        | exact absurd e1 (h 1)
        | exact absurd e2 (h 2)
        | simp [safe_click, safe_click_loop, e0, e1, e2]
  · intro h
    simp [safe_click, safe_click_loop, h]

/-- Witness for C3: an element that always raises a driver error yields
3 attempts and `false`; an element succeeding at once yields `true`. -/
theorem safe_click_spec_witness :
    safe_click (fun _ => ClickOutcome.webDriverError) = (some false, 3, 2)
    ∧ safe_click (fun _ => ClickOutcome.success) = (some true, 1, 0) :=
  ⟨(safe_click_spec (fun _ => ClickOutcome.webDriverError)).2.1
      (fun _ => by decide),
   (safe_click_spec (fun _ => ClickOutcome.success)).2.2 rfl⟩

/-- Helper: if the committed indicator never disappears, the wait loop
returns `false` and only once the elapsed time has reached the timeout. -/
theorem captcha_wait_stuck (present : Nat → Bool) (i : Fin 3) (t : Nat)
    (hp : ∀ j, present j = true) :
    ∀ n k, t - 2 * k ≤ n →
      (captcha_wait present i t k).1 = false ∧
        t ≤ (captcha_wait present i t k).2.1 := by
  intro n
  induction n with
  | zero =>
    intro k hk
    have h : ¬ 2 * k < t := by omega
    rw [captcha_wait, dif_neg h]
    exact ⟨rfl, show t ≤ 2 * k by omega⟩
  | succ n ih =>
    intro k hk
    by_cases h : 2 * k < t
    · rw [captcha_wait, dif_pos h, hp k, if_pos rfl]
      exact ih (k + 1) (by omega)
    · rw [captcha_wait, dif_neg h]
      exact ⟨rfl, show t ≤ 2 * k by omega⟩

/-- Helper: the wait loop only ever polls the committed locator and
sleeps. -/
theorem captcha_wait_events (present : Nat → Bool) (i : Fin 3) (t : Nat) :
    ∀ n k, t - 2 * k ≤ n →
      ∀ e ∈ (captcha_wait present i t k).2.2,
        e = CEvent.poll i ∨ e = CEvent.sleep2 := by
  intro n
  induction n with
  | zero =>
    intro k hk e he
    have h : ¬ 2 * k < t := by omega
    rw [captcha_wait, dif_neg h] at he
    simp at he
  | succ n ih =>
    intro k hk e he
    by_cases h : 2 * k < t
    · rw [captcha_wait, dif_pos h] at he
      cases hp : present k with
      | false =>
        rw [hp, if_neg (by simp)] at he
        simp at he
        simp [he]
      | true =>
        rw [hp, if_pos rfl] at he
        simp at he
        rcases he with he | he | he
        · simp [he]
        · simp [he]
        · exact ih (k + 1) (by omega) e he
    · rw [captcha_wait, dif_neg h] at he
      simp at he

/-- Helper: if the committed indicator stays present exactly until poll
iteration `k0` with `2 * k0` inside the timeout, the wait loop returns
`true` with elapsed time `2 * k0`. -/
theorem captcha_wait_clears (present : Nat → Bool) (i : Fin 3) (t k0 : Nat)
    (hlt : 2 * k0 < t) (hk0 : present k0 = false)
    (hbefore : ∀ j, j < k0 → present j = true) :
    ∀ n s, k0 - s ≤ n → s ≤ k0 →
      (captcha_wait present i t s).1 = true ∧
        (captcha_wait present i t s).2.1 = 2 * k0 := by
  intro n
  induction n with
  | zero =>
    intro s hn hs
    have hsk : s = k0 := by omega
    subst hsk
    rw [captcha_wait, dif_pos hlt, hk0, if_neg (by simp)]
    exact ⟨rfl, rfl⟩
  | succ n ih =>
    intro s hn hs
    by_cases hsk : s = k0
    · subst hsk
      rw [captcha_wait, dif_pos hlt, hk0, if_neg (by simp)]
      exact ⟨rfl, rfl⟩
    · have hslt : s < k0 := by omega
      have h2 : 2 * s < t := by omega
      rw [captcha_wait, dif_pos h2, hbefore s hslt, if_pos rfl]
      exact ih (s + 1) (by omega) (by omega)

/-- Helper: when indicator `i` is the first displayed one, the scan
commits to it: the result, committed index, elapsed time and polling
events are those of the wait loop on `i`, preceded by the checks up to
`i` and the operator prompt. -/
theorem handle_captcha_first (env : CaptchaEnv) (t : Nat) (i : Fin 3)
    (hi : env.initial i = IndicatorState.displayed)
    (hj : ∀ j, j < i → env.initial j ≠ IndicatorState.displayed) :
    handle_captcha env t =
      ((captcha_wait (env.presentAt i) i t 0).1, some i,
       (captcha_wait (env.presentAt i) i t 0).2.1,
       checksUpTo i ++ CEvent.promptShown ::
         (captcha_wait (env.presentAt i) i t 0).2.2) := by
  fin_cases i
  · have hi0 : env.initial 0 = IndicatorState.displayed := hi
    simp [handle_captcha, handle_captcha_go, checksUpTo, hi0]
  · have hi1 : env.initial 1 = IndicatorState.displayed := hi
    have h0 : env.initial 0 ≠ IndicatorState.displayed := hj 0 (by decide)
    rcases e0 : env.initial 0 with _ | _ | _ <;>
      simp_all [handle_captcha, handle_captcha_go, checksUpTo]
  · have hi2 : env.initial 2 = IndicatorState.displayed := hi
    have h0 : env.initial 0 ≠ IndicatorState.displayed := hj 0 (by decide)
    have h1 : env.initial 1 ≠ IndicatorState.displayed := hj 1 (by decide)
    rcases e0 : env.initial 0 with _ | _ | _ <;>
      rcases e1 : env.initial 1 with _ | _ | _ <;>
      simp_all [handle_captcha, handle_captcha_go, checksUpTo]

/-- Helper: when no indicator is displayed, the scan checks all three
indicators and returns `true` with no prompt, no polling and no elapsed
time. -/
theorem handle_captcha_none (env : CaptchaEnv) (t : Nat)
    (h : ∀ i, env.initial i ≠ IndicatorState.displayed) :
    handle_captcha env t =
      (true, none, 0, [CEvent.check 0, CEvent.check 1, CEvent.check 2]) := by
  have h0 := h 0
  have h1 := h 1
  have h2 := h 2
  rcases e0 : env.initial 0 with _ | _ | _ <;>
    rcases e1 : env.initial 1 with _ | _ | _ <;>
    rcases e2 : env.initial 2 with _ | _ | _ <;>
    simp_all [handle_captcha, handle_captcha_go]

/-- Helper: the scan-phase events are all indicator checks. -/
theorem mem_checksUpTo (i : Fin 3) (e : CEvent) (he : e ∈ checksUpTo i) :
    ∃ j, e = CEvent.check j := by
  fin_cases i
  · simp [checksUpTo] at he
    exact ⟨0, he⟩
  · simp [checksUpTo] at he
    rcases he with he | he
    · exact ⟨0, he⟩
    · exact ⟨1, he⟩
  · simp [checksUpTo] at he
    rcases he with he | he | he
    · exact ⟨0, he⟩
    · exact ⟨1, he⟩
    · exact ⟨2, he⟩

/-- C4: `handle_captcha` with timeout `t` returns `true` with zero polling
iterations and zero elapsed time when no indicator is present and
displayed; when the first displayed indicator disappears at polling
iteration `k0` within the timeout, it returns `true` at elapsed time
`2 * k0` (2-time-unit polling intervals); and when the indicator never
disappears it returns `false` no earlier than the timeout boundary `t`. -/
theorem handle_captcha_timing (env : CaptchaEnv) (t : Nat) :
    ((∀ i, env.initial i ≠ IndicatorState.displayed) →
      handle_captcha env t =
        (true, none, 0, [CEvent.check 0, CEvent.check 1, CEvent.check 2]))
    ∧ (∀ (i : Fin 3) (k0 : Nat), env.initial i = IndicatorState.displayed →
        (∀ j, j < i → env.initial j ≠ IndicatorState.displayed) →
        2 * k0 < t → (∀ j, j < k0 → env.presentAt i j = true) →
        env.presentAt i k0 = false →
        (handle_captcha env t).1 = true ∧
          (handle_captcha env t).2.2.1 = 2 * k0)
    ∧ (∀ i : Fin 3, env.initial i = IndicatorState.displayed →
        (∀ j, j < i → env.initial j ≠ IndicatorState.displayed) →
        (∀ k, env.presentAt i k = true) →
        (handle_captcha env t).1 = false ∧
          t ≤ (handle_captcha env t).2.2.1) := by
  refine ⟨fun h => handle_captcha_none env t h, ?_, ?_⟩
  · intro i k0 hi hj hlt hb hk0
    rw [handle_captcha_first env t i hi hj]
    exact captcha_wait_clears (env.presentAt i) i t k0 hlt hk0 hb k0 0
      (by omega) (by omega)
  · intro i hi hj hp
    rw [handle_captcha_first env t i hi hj]
    exact captcha_wait_stuck (env.presentAt i) i t hp t 0 (by omega)

/-- Witness for C4: with timeout 60, a hidden-indicators page returns
`true` at once; a first indicator that clears at the third poll returns
`true` at elapsed time 6; a stuck indicator returns `false` no earlier
than 60. -/
theorem handle_captcha_timing_witness :
    handle_captcha capEnvNone 60 =
      (true, none, 0, [CEvent.check 0, CEvent.check 1, CEvent.check 2])
    ∧ ((handle_captcha capEnvClears 60).1 = true ∧
        (handle_captcha capEnvClears 60).2.2.1 = 2 * 3)
    ∧ ((handle_captcha capEnvStuck 60).1 = false ∧
        60 ≤ (handle_captcha capEnvStuck 60).2.2.1) :=
  ⟨(handle_captcha_timing capEnvNone 60).1 (by decide),
   (handle_captcha_timing capEnvClears 60).2.1 0 3 (by decide) (by decide)
     (by decide)
     (fun j hj => by simp [capEnvClears]; omega)
     (by decide),
   (handle_captcha_timing capEnvStuck 60).2.2 0 (by decide) (by decide)
     (fun _ => rfl)⟩

/-- C10: `handle_captcha` commits to the first displayed indicator in
list order: the committed indicator is the first one displayed, only that
locator is re-polled during the wait loop, a page with no displayed
indicator is cleared with no prompt and no waiting, and the function
returns `true` as soon as the committed locator is absent even when other
indicators are still displayed (the hypotheses say nothing about the
indicators after `i`). -/
theorem handle_captcha_commits_to_first (env : CaptchaEnv) (t : Nat) :
    (∀ i : Fin 3, env.initial i = IndicatorState.displayed →
      (∀ j, j < i → env.initial j ≠ IndicatorState.displayed) →
      (handle_captcha env t).2.1 = some i ∧
        ∀ j : Fin 3, CEvent.poll j ∈ (handle_captcha env t).2.2.2 → j = i)
    ∧ ((∀ i, env.initial i ≠ IndicatorState.displayed) →
        (handle_captcha env t).1 = true ∧
          CEvent.promptShown ∉ (handle_captcha env t).2.2.2 ∧
          CEvent.sleep2 ∉ (handle_captcha env t).2.2.2)
    ∧ (∀ (i : Fin 3) (k0 : Nat), env.initial i = IndicatorState.displayed →
        (∀ j, j < i → env.initial j ≠ IndicatorState.displayed) →
        2 * k0 < t → (∀ j, j < k0 → env.presentAt i j = true) →
        env.presentAt i k0 = false →
        (handle_captcha env t).1 = true) := by
  refine ⟨?_, ?_, ?_⟩
  · intro i hi hj
    rw [handle_captcha_first env t i hi hj]
    refine ⟨rfl, ?_⟩
    intro j hmem
    simp only [List.mem_append, List.mem_cons] at hmem
    rcases hmem with hmem | hmem | hmem
    · rcases mem_checksUpTo i _ hmem with ⟨j', hj'⟩
      exact absurd hj' (by simp)
    · exact absurd hmem (by simp)
    · have := captcha_wait_events (env.presentAt i) i t t 0 (by omega)
        (CEvent.poll j) hmem
      rcases this with h | h
      · exact CEvent.poll.inj h
      · exact absurd h (by simp)
  · intro h
    rw [handle_captcha_none env t h]
    simp
  · intro i k0 hi hj hlt hb hk0
    rw [handle_captcha_first env t i hi hj]
    exact (captcha_wait_clears (env.presentAt i) i t k0 hlt hk0 hb k0 0
      (by omega) (by omega)).1

/-- Witness for C10: on a page where all three indicators are displayed,
the handler commits to indicator 0 and, because that single locator
disappears at the third poll, returns `true` even though indicators 1 and
2 are still displayed. -/
theorem handle_captcha_commits_to_first_witness :
    (handle_captcha capEnvBoth 60).2.1 = some 0
    ∧ capEnvBoth.initial 1 = IndicatorState.displayed
    ∧ (handle_captcha capEnvBoth 60).1 = true :=
  ⟨((handle_captcha_commits_to_first capEnvBoth 60).1 0 (by decide)
      (by decide)).1,
   by decide,
   (handle_captcha_commits_to_first capEnvBoth 60).2.2 0 3 (by decide)
     (by decide) (by decide)
     (fun j hj => by simp [capEnvBoth]; omega)
     (by decide)⟩

/-- Helper: `countUploads` distributes over concatenation. -/
theorem countUploads_append (a b : List BEvent) :
    countUploads (a ++ b) = countUploads a + countUploads b := by
  simp [countUploads, List.countP_append]

/-- Helper: empty traces upload nothing. -/
theorem countUploads_nil : countUploads [] = 0 := rfl

/-- Helper: `countUploads` over a cons counts the head by its
constructor. -/
theorem countUploads_cons (e : BEvent) (l : List BEvent) :
    countUploads (e :: l) =
      countUploads l +
        (match e with
         | BEvent.upload _ => 1
         | _ => 0) := by
  cases e <;> simp [countUploads, List.countP_cons]

/-- Helper: a lone navigation uploads nothing. -/
theorem countUploads_navigate (u : String) :
    countUploads [BEvent.navigate u] = 0 := rfl

/-- Helper: a lone category click uploads nothing. -/
theorem countUploads_categoryClick :
    countUploads [BEvent.categoryClick] = 0 := rfl

/-- Helper: a lone form fill uploads nothing. -/
theorem countUploads_fillFields : countUploads [BEvent.fillFields] = 0 := rfl

/-- Helper: a lone captcha check uploads nothing. -/
theorem countUploads_captchaCheck :
    countUploads [BEvent.captchaCheck] = 0 := rfl

/-- Helper: a lone submit click uploads nothing. -/
theorem countUploads_submitClick :
    countUploads [BEvent.submitClick] = 0 := rfl

/-- Helper: a lone confirmation wait uploads nothing. -/
theorem countUploads_confirmWait :
    countUploads [BEvent.confirmWait] = 0 := rfl

/-- Helper: the login helper never uploads. -/
theorem countUploads_login (env : SiteEnv) (c : Credentials) :
    countUploads (login_helper env c).2 = 0 := by
  unfold login_helper
  split
  · rfl
  · rcases env.loginSteps with e | u <;> rfl

/-- Helper: the upload loop makes exactly one attempt (and one upload
event) per image handed to it, whatever the per-image outcomes are. -/
theorem upload_loop_count (o : Nat → Except String Unit) :
    ∀ (i : Nat) (l : List String),
      countUploads (upload_loop o i l).1 = l.length ∧
        (upload_loop o i l).2 = l.length := by
  intro i l
  induction l generalizing i with
  | nil => exact ⟨rfl, rfl⟩
  | cons p rest ih =>
    have h1 := (ih (i + 1)).1
    have h2 := (ih (i + 1)).2
    rcases ho : o i with u | e <;>
      simp_all [upload_loop, countUploads, List.countP_cons]

/-- Helper: the shared adapter tail uploads exactly the first `cap`
images on top of whatever the preceding trace contains, in every one of
its outcome branches. -/
theorem adapter_tail_uploads (env : SiteEnv) (d : PropertyDetails)
    (cap : Nat) (r0 : PostResult) (ev : List BEvent) :
    countUploads (adapter_tail env d cap r0 ev).2 =
      countUploads ev + (d.images.take cap).length := by
  have hup := (upload_loop_count env.uploadOutcome 0 (d.images.take cap)).1
  unfold adapter_tail
  rcases env.captcha with e | b
  · simp [countUploads_append, countUploads_cons, countUploads_nil, hup]
  · cases b
    · simp [countUploads_append, countUploads_cons, countUploads_nil, hup]
    · rcases env.submitStep with e | u
      · simp [countUploads_append, countUploads_cons, countUploads_nil,
          hup]
      · rcases env.confirm with e | b2
        · simp [countUploads_append, countUploads_cons, countUploads_nil,
            hup]
        · cases b2
          · simp [countUploads_append, countUploads_cons,
              countUploads_nil, hup]
          · rcases env.urlExtract with e | u <;>
              · simp [countUploads_append, countUploads_cons,
                  countUploads_nil, hup]

/-- Helper: upload-count bound for the njoftime adapter. -/
theorem njoftime_upload_bound (env : SiteEnv) (d : PropertyDetails)
    (c : Credentials) (r0 : PostResult) :
    countUploads (post_to_njoftime_com env d c r0).2 ≤
      min d.images.length 5 := by
  unfold post_to_njoftime_com
  rcases env.navLogin with e | u
  · simp [countUploads_cons, countUploads_nil]
  · simp only []
    split
    · simp [countUploads_append, countUploads_cons, countUploads_nil,
        countUploads_login]
    · rcases env.navPost with e | u2
      · simp [countUploads_append, countUploads_cons, countUploads_nil,
          countUploads_login]
      · rcases env.categoryStep with e | u3
        · simp [countUploads_append, countUploads_cons, countUploads_nil,
            countUploads_login]
        · rcases env.fillFields with e | u4
          · simp [countUploads_append, countUploads_cons,
              countUploads_nil, countUploads_login]
          · rw [adapter_tail_uploads]
            simp [countUploads_append, countUploads_cons,
              countUploads_nil, countUploads_login, List.length_take]

/-- Helper: upload-count bound for the merrjep adapter. -/
theorem merrjep_upload_bound (env : SiteEnv) (d : PropertyDetails)
    (c : Credentials) (r0 : PostResult) :
    countUploads (post_to_merrjep_al env d c r0).2 ≤
      min d.images.length 10 := by
  unfold post_to_merrjep_al
  rcases env.navLogin with e | u
  · simp [countUploads_cons, countUploads_nil]
  · simp only []
    split
    · simp [countUploads_append, countUploads_cons, countUploads_nil,
        countUploads_login]
    · rcases env.navPost with e | u2
      · simp [countUploads_append, countUploads_cons, countUploads_nil,
          countUploads_login]
      · rcases env.categoryStep with e | u3
        · simp [countUploads_append, countUploads_cons, countUploads_nil,
            countUploads_login]
        · rcases env.fillFields with e | u4
          · simp [countUploads_append, countUploads_cons,
              countUploads_nil, countUploads_login]
          · rw [adapter_tail_uploads]
            simp [countUploads_append, countUploads_cons,
              countUploads_nil, countUploads_login, List.length_take]

/-- Helper: upload-count bound for the indomio adapter. -/
theorem indomio_upload_bound (env : SiteEnv) (d : PropertyDetails)
    (c : Credentials) (r0 : PostResult) :
    countUploads (post_to_indomio_al env d c r0).2 ≤
      min d.images.length 15 := by
  unfold post_to_indomio_al
  rcases env.navLogin with e | u
  · simp [countUploads_cons, countUploads_nil]
  · simp only []
    split
    · simp [countUploads_append, countUploads_cons, countUploads_nil,
        countUploads_login]
    · rcases env.navPost with e | u2
      · simp [countUploads_append, countUploads_cons, countUploads_nil,
          countUploads_login]
      · rcases env.fillFields with e | u4
        · simp [countUploads_append, countUploads_cons, countUploads_nil,
            countUploads_login]
        · rw [adapter_tail_uploads]
          simp [countUploads_append, countUploads_cons, countUploads_nil,
            countUploads_login, List.length_take]

/-- C5: per-portal image-upload caps — for a listing with `n` image paths
the njoftime adapter attempts at most `min n 5` uploads, merrjep at most
`min n 10`, indomio at most `min n 15`; and the upload loop makes exactly
one attempt per handed-over image whatever the per-image outcomes are, so
a failing image neither reduces the attempts for the remaining images nor
aborts the listing. -/
theorem image_upload_caps :
    (∀ (env : SiteEnv) (d : PropertyDetails) (c : Credentials)
        (r0 : PostResult),
      countUploads (post_to_njoftime_com env d c r0).2 ≤
        min d.images.length 5)
    ∧ (∀ (env : SiteEnv) (d : PropertyDetails) (c : Credentials)
        (r0 : PostResult),
      countUploads (post_to_merrjep_al env d c r0).2 ≤
        min d.images.length 10)
    ∧ (∀ (env : SiteEnv) (d : PropertyDetails) (c : Credentials)
        (r0 : PostResult),
      countUploads (post_to_indomio_al env d c r0).2 ≤
        min d.images.length 15)
    ∧ (∀ (o o' : Nat → Except String Unit) (i : Nat) (l : List String),
      (upload_loop o i l).2 = l.length ∧
        (upload_loop o i l).2 = (upload_loop o' i l).2) :=
  ⟨njoftime_upload_bound, merrjep_upload_bound, indomio_upload_bound,
   fun o o' i l =>
     ⟨(upload_loop_count o i l).2,
      by rw [(upload_loop_count o i l).2, (upload_loop_count o' i l).2]⟩⟩

/-- Witness for C5: the bound at a concrete run, and a loop whose every
upload fails still attempting one upload per image. -/
theorem image_upload_caps_witness :
    countUploads (post_to_njoftime_com okEnv sampleDetails sampleCreds
        { site := "njoftime.com", success := false, message := "",
          listing_url := none }).2 ≤ min sampleDetails.images.length 5
    ∧ (upload_loop (fun _ => Except.error "disk full") 0
        sampleDetails.images).2 = sampleDetails.images.length :=
  ⟨image_upload_caps.1 okEnv sampleDetails sampleCreds _,
   (image_upload_caps.2.2.2 (fun _ => Except.error "disk full")
      (fun _ => Except.ok ()) 0 sampleDetails.images).1⟩

/-- Helper: the unconfirmed-submission message starts with `C`, so it is
not an `"Error: <text>"` message for any text. -/
theorem unconfirmed_ne_error (e : String) :
    "Could not confirm successful posting" ≠ "Error: " ++ e := by
  intro h
  have hd : ("Could not confirm successful posting").data.head? =
      ("Error: " ++ e).data.head? := by rw [h]
  rw [String.data_append] at hd
  simp [String.data] at hd

/-- Helper: the unconfirmed-submission message is not an
`"Unsupported site: <id>"` message for any identifier. -/
theorem unconfirmed_ne_unsupported (s : String) :
    "Could not confirm successful posting" ≠ "Unsupported site: " ++ s := by
  intro h
  have hd : ("Could not confirm successful posting").data.head? =
      ("Unsupported site: " ++ s).data.head? := by rw [h]
  rw [String.data_append] at hd
  simp [String.data] at hd

/-- C6: for every registered site, empty credentials or credentials
lacking a `username` or `password` key make the adapter return
`success = false` with message exactly `"Login failed"`, and the only
navigation performed is the initial one to that portal's login page —
no navigation beyond it (the initial login-page navigation is assumed not
to raise, since a driver failure there surfaces as an `"Error: ..."`
message instead). -/
theorem missing_credentials_login_failed (env : SiteEnv)
    (d : PropertyDetails) (c : Credentials) (hm : c.missing = true)
    (hnav : env.navLogin = Except.ok ()) :
    ((post_listing env "njoftime.com" d c).1 =
      { site := "njoftime.com", success := false,
        message := "Login failed", listing_url := none }
    ∧ (post_listing env "njoftime.com" d c).2 =
        [BEvent.navigate "https://njoftime.com/login"])
    ∧ ((post_listing env "merrjep.al" d c).1 =
      { site := "merrjep.al", success := false,
        message := "Login failed", listing_url := none }
    ∧ (post_listing env "merrjep.al" d c).2 =
        [BEvent.navigate "https://www.merrjep.al/login"])
    ∧ ((post_listing env "indomio.al" d c).1 =
      { site := "indomio.al", success := false,
        message := "Login failed", listing_url := none }
    ∧ (post_listing env "indomio.al" d c).2 =
        [BEvent.navigate "https://indomio.al/login"]) := by
  refine ⟨⟨?_, ?_⟩, ⟨?_, ?_⟩, ⟨?_, ?_⟩⟩ <;>
    simp [post_listing, post_to_njoftime_com, post_to_merrjep_al,
      post_to_indomio_al, login_helper, hm, hnav]

/-- Witness for C6 with empty credentials and a healthy driver. -/
theorem missing_credentials_login_failed_witness :
    ((post_listing okEnv "njoftime.com" sampleDetails []).1 =
      { site := "njoftime.com", success := false,
        message := "Login failed", listing_url := none }
    ∧ (post_listing okEnv "njoftime.com" sampleDetails []).2 =
        [BEvent.navigate "https://njoftime.com/login"])
    ∧ ((post_listing okEnv "merrjep.al" sampleDetails []).1 =
      { site := "merrjep.al", success := false,
        message := "Login failed", listing_url := none }
    ∧ (post_listing okEnv "merrjep.al" sampleDetails []).2 =
        [BEvent.navigate "https://www.merrjep.al/login"])
    ∧ ((post_listing okEnv "indomio.al" sampleDetails []).1 =
      { site := "indomio.al", success := false,
        message := "Login failed", listing_url := none }
    ∧ (post_listing okEnv "indomio.al" sampleDetails []).2 =
        [BEvent.navigate "https://indomio.al/login"]) :=
  missing_credentials_login_failed okEnv sampleDetails [] rfl rfl

/-- C7: an adapter run that reaches submission but sees no success
indicator inside the 15-time-unit confirmation window returns
`success = false` with message exactly
`"Could not confirm successful posting"`, for each of the three adapters;
and that message is distinct from every confirmed-failure message the
engine produces (`"Login failed"`, `"Captcha handling failed"`,
`"Error: <text>"`, `"Unsupported site: <id>"`). -/
theorem unconfirmed_submission_result (env : SiteEnv)
    (d : PropertyDetails) (c : Credentials) (hcm : c.missing = false)
    (h1 : env.navLogin = Except.ok ()) (h2 : env.loginSteps = Except.ok ())
    (h3 : env.loginVerified = true) (h4 : env.navPost = Except.ok ())
    (h5 : env.categoryStep = Except.ok ())
    (h6 : env.fillFields = Except.ok ()) (h7 : env.captcha = Except.ok true)
    (h8 : env.submitStep = Except.ok ())
    (h9 : env.confirm = Except.ok false) :
    (∀ site ∈ ["njoftime.com", "merrjep.al", "indomio.al"],
      (post_listing env site d c).1.success = false ∧
        (post_listing env site d c).1.message =
          "Could not confirm successful posting")
    ∧ "Could not confirm successful posting" ≠ "Login failed"
    ∧ "Could not confirm successful posting" ≠ "Captcha handling failed"
    ∧ (∀ e : String,
        "Could not confirm successful posting" ≠ "Error: " ++ e)
    ∧ (∀ s : String,
        "Could not confirm successful posting" ≠
          "Unsupported site: " ++ s) := by
  refine ⟨?_, by decide, by decide, unconfirmed_ne_error,
    unconfirmed_ne_unsupported⟩
  intro site hsite
  simp only [List.mem_cons, List.not_mem_nil, or_false] at hsite
  rcases hsite with h | h | h
  · subst h
    constructor <;>
      simp [post_listing, post_to_njoftime_com, adapter_tail, login_helper,
        upload_loop, hcm, h1, h2, h3, h4, h5, h6, h7, h8, h9]
  · subst h
    constructor <;>
      simp [post_listing, post_to_merrjep_al, adapter_tail, login_helper,
        upload_loop, hcm, h1, h2, h3, h4, h5, h6, h7, h8, h9]
  · subst h
    constructor <;>
      simp [post_listing, post_to_indomio_al, adapter_tail, login_helper,
        upload_loop, hcm, h1, h2, h3, h4, h5, h6, h7, h8, h9]

/-- Witness for C7: a healthy run whose confirmation wait times out on
all three portals, with complete credentials. -/
theorem unconfirmed_submission_result_witness :
    (∀ site ∈ ["njoftime.com", "merrjep.al", "indomio.al"],
      (post_listing { okEnv with confirm := Except.ok false } site
          sampleDetails sampleCreds).1.success = false ∧
        (post_listing { okEnv with confirm := Except.ok false } site
          sampleDetails sampleCreds).1.message =
          "Could not confirm successful posting")
    ∧ "Could not confirm successful posting" ≠ "Login failed"
    ∧ "Could not confirm successful posting" ≠ "Captcha handling failed"
    ∧ (∀ e : String,
        "Could not confirm successful posting" ≠ "Error: " ++ e)
    ∧ (∀ s : String,
        "Could not confirm successful posting" ≠
          "Unsupported site: " ++ s) :=
  unconfirmed_submission_result { okEnv with confirm := Except.ok false }
    sampleDetails sampleCreds rfl rfl rfl rfl rfl rfl rfl rfl rfl rfl

/-- Helper: the shared adapter tail never changes the `site` field. -/
theorem adapter_tail_site (env : SiteEnv) (d : PropertyDetails) (cap : Nat)
    (r0 : PostResult) (ev : List BEvent) :
    (adapter_tail env d cap r0 ev).1.site = r0.site := by
  unfold adapter_tail
  rcases env.captcha with e | b
  · rfl
  · cases b
    · rfl
    · rcases env.submitStep with e | u
      · rfl
      · rcases env.confirm with e | b2
        · rfl
        · cases b2
          · rfl
          · rcases env.urlExtract with e | u2 <;> rfl

/-- Helper: the njoftime adapter never changes the `site` field. -/
theorem njoftime_site (env : SiteEnv) (d : PropertyDetails)
    (c : Credentials) (r0 : PostResult) :
    (post_to_njoftime_com env d c r0).1.site = r0.site := by
  unfold post_to_njoftime_com
  rcases env.navLogin with e | u
  · rfl
  · simp only []
    split
    · rfl
    · rcases env.navPost with e | u2
      · rfl
      · rcases env.categoryStep with e | u3
        · rfl
        · rcases env.fillFields with e | u4
          · rfl
          · exact adapter_tail_site env d 5 r0 _

/-- Helper: the merrjep adapter never changes the `site` field. -/
theorem merrjep_site (env : SiteEnv) (d : PropertyDetails)
    (c : Credentials) (r0 : PostResult) :
    (post_to_merrjep_al env d c r0).1.site = r0.site := by
  unfold post_to_merrjep_al
  rcases env.navLogin with e | u
  · rfl
  · simp only []
    split
    · rfl
    · rcases env.navPost with e | u2
      · rfl
      · rcases env.categoryStep with e | u3
        · rfl
        · rcases env.fillFields with e | u4
          · rfl
          · exact adapter_tail_site env d 10 r0 _

/-- Helper: the indomio adapter never changes the `site` field. -/
theorem indomio_site (env : SiteEnv) (d : PropertyDetails)
    (c : Credentials) (r0 : PostResult) :
    (post_to_indomio_al env d c r0).1.site = r0.site := by
  unfold post_to_indomio_al
  rcases env.navLogin with e | u
  · rfl
  · simp only []
    split
    · rfl
    · rcases env.navPost with e | u2
      · rfl
      · rcases env.fillFields with e | u4
        · rfl
        · exact adapter_tail_site env d 15 r0 _

/-- Helper: the `site` field of every `post_listing` result equals the
requested site identifier. -/
theorem post_listing_site (env : SiteEnv) (site : String)
    (d : PropertyDetails) (c : Credentials) :
    (post_listing env site d c).1.site = site := by
  unfold post_listing
  split
  · exact njoftime_site env d c _
  · split
    · exact merrjep_site env d c _
    · split
      · exact indomio_site env d c _
      · rfl

/-- Helper: if the tail is entered with an unset success flag and returns
`success = true`, then the confirmation indicator was observed, and the
final message and listing URL are determined by the URL-extraction
outcome. -/
theorem adapter_tail_success_full (env : SiteEnv) (d : PropertyDetails)
    (cap : Nat) (r0 : PostResult) (ev : List BEvent)
    (h0 : r0.success = false) :
    (adapter_tail env d cap r0 ev).1.success = true →
      env.confirm = Except.ok true ∧
      (∀ u, env.urlExtract = Except.ok u →
        (adapter_tail env d cap r0 ev).1.message =
            "Listing posted successfully" ∧
          (adapter_tail env d cap r0 ev).1.listing_url = u) ∧
      (∀ e, env.urlExtract = Except.error e →
        (adapter_tail env d cap r0 ev).1.message = "Error: " ++ e) := by
  unfold adapter_tail
  rcases env.captcha with e | b
  · intro h
    simp [h0] at h
  · cases b
    · intro h
      simp [h0] at h
    · rcases env.submitStep with e | u
      · intro h
        simp [h0] at h
      · rcases env.confirm with e | b2
        · intro h
          simp [h0] at h
        · cases b2
          · intro h
            simp [h0] at h
          · rcases env.urlExtract with e2 | u2
            · intro _
              refine ⟨rfl, ?_, ?_⟩
              · intro u hu
                exact absurd hu (by simp)
              · intro e he
                injection he with he2
                subst he2
                exact rfl
            · intro _
              refine ⟨rfl, ?_, ?_⟩
              · intro u hu
                injection hu with hu2
                subst hu2
                exact ⟨rfl, rfl⟩
              · intro e he
                exact absurd he (by simp)

/-- Helper: a `success = true` result of the njoftime adapter implies the
confirmation indicator was observed, with the message fixed by the
URL-extraction outcome. -/
theorem njoftime_success_full (env : SiteEnv) (d : PropertyDetails)
    (c : Credentials) (r0 : PostResult) (h0 : r0.success = false) :
    (post_to_njoftime_com env d c r0).1.success = true →
      env.confirm = Except.ok true ∧
      (∀ u, env.urlExtract = Except.ok u →
        (post_to_njoftime_com env d c r0).1.message =
            "Listing posted successfully" ∧
          (post_to_njoftime_com env d c r0).1.listing_url = u) ∧
      (∀ e, env.urlExtract = Except.error e →
        (post_to_njoftime_com env d c r0).1.message = "Error: " ++ e) := by
  unfold post_to_njoftime_com
  rcases env.navLogin with e | u
  · intro h
    simp [h0] at h
  · simp only []
    split
    · intro h
      simp [h0] at h
    · rcases env.navPost with e | u2
      · intro h
        simp [h0] at h
      · rcases env.categoryStep with e | u3
        · intro h
          simp [h0] at h
        · rcases env.fillFields with e | u4
          · intro h
            simp [h0] at h
          · exact adapter_tail_success_full env d 5 r0 _ h0

/-- Helper: a `success = true` result of the merrjep adapter implies the
confirmation indicator was observed, with the message fixed by the
URL-extraction outcome. -/
theorem merrjep_success_full (env : SiteEnv) (d : PropertyDetails)
    (c : Credentials) (r0 : PostResult) (h0 : r0.success = false) :
    (post_to_merrjep_al env d c r0).1.success = true →
      env.confirm = Except.ok true ∧
      (∀ u, env.urlExtract = Except.ok u →
        (post_to_merrjep_al env d c r0).1.message =
            "Listing posted successfully" ∧
          (post_to_merrjep_al env d c r0).1.listing_url = u) ∧
      (∀ e, env.urlExtract = Except.error e →
        (post_to_merrjep_al env d c r0).1.message = "Error: " ++ e) := by
  unfold post_to_merrjep_al
  rcases env.navLogin with e | u
  · intro h
    simp [h0] at h
  · simp only []
    split
    · intro h
      simp [h0] at h
    · rcases env.navPost with e | u2
      · intro h
        simp [h0] at h
      · rcases env.categoryStep with e | u3
        · intro h
          simp [h0] at h
        · rcases env.fillFields with e | u4
          · intro h
            simp [h0] at h
          · exact adapter_tail_success_full env d 10 r0 _ h0

/-- Helper: a `success = true` result of the indomio adapter implies the
confirmation indicator was observed, with the message fixed by the
URL-extraction outcome. -/
theorem indomio_success_full (env : SiteEnv) (d : PropertyDetails)
    (c : Credentials) (r0 : PostResult) (h0 : r0.success = false) :
    (post_to_indomio_al env d c r0).1.success = true →
      env.confirm = Except.ok true ∧
      (∀ u, env.urlExtract = Except.ok u →
        (post_to_indomio_al env d c r0).1.message =
            "Listing posted successfully" ∧
          (post_to_indomio_al env d c r0).1.listing_url = u) ∧
      (∀ e, env.urlExtract = Except.error e →
        (post_to_indomio_al env d c r0).1.message = "Error: " ++ e) := by
  unfold post_to_indomio_al
  rcases env.navLogin with e | u
  · intro h
    simp [h0] at h
  · simp only []
    split
    · intro h
      simp [h0] at h
    · rcases env.navPost with e | u2
      · intro h
        simp [h0] at h
      · rcases env.fillFields with e | u4
        · intro h
          simp [h0] at h
        · exact adapter_tail_success_full env d 15 r0 _ h0

/-- C2 counterexample: in a run the source reaches a confirmed success
(`success = True`, src 333) and the subsequent listing-URL recovery
raises (src 337-339); the exception is caught by the adapter handler
(src 344-345), but the returned result has `success = true` with message
`"Error: connection lost"` — not `success = false` as the claim states
for every caught adapter exception. -/
theorem caught_exception_not_always_failure :
    (post_listing urlCrashEnv "njoftime.com" sampleDetails
        sampleCreds).1.success = true
    ∧ (post_listing urlCrashEnv "njoftime.com" sampleDetails
        sampleCreds).1.message = "Error: connection lost" := by
  constructor <;> rfl

set_option maxHeartbeats 4000000 in
/-- C2 (amended): `post_listing` is total — every exception raised by a
grouped adapter step is caught and surfaced in the returned result with
message `"Error: <text>"` carrying the exception text; the result has
`success = false` except when the exception strikes during listing-URL
extraction after the confirmation indicator was already observed, in
which case `success` stays `true`; and the orchestrator loop produces one
result per requested site in order, so no site's failure prevents the
attempts on subsequent sites. -/
theorem adapter_exceptions_contained :
    ((∀ (env : SiteEnv) (d : PropertyDetails) (c : Credentials)
        (e : String), env.navLogin = Except.error e →
        (post_listing env "njoftime.com" d c).1 = errResult "njoftime.com" e)
    ∧ (∀ (env : SiteEnv) (d : PropertyDetails) (c : Credentials)
        (e : String), env.navLogin = Except.ok () →
        c.missing = false →
        env.loginSteps = Except.ok () →
        env.loginVerified = true →
        env.navPost = Except.error e →
        (post_listing env "njoftime.com" d c).1 = errResult "njoftime.com" e)
    ∧ (∀ (env : SiteEnv) (d : PropertyDetails) (c : Credentials)
        (e : String), env.navLogin = Except.ok () →
        c.missing = false →
        env.loginSteps = Except.ok () →
        env.loginVerified = true →
        env.navPost = Except.ok () →
        env.categoryStep = Except.error e →
        (post_listing env "njoftime.com" d c).1 = errResult "njoftime.com" e)
    ∧ (∀ (env : SiteEnv) (d : PropertyDetails) (c : Credentials)
        (e : String), env.navLogin = Except.ok () →
        c.missing = false →
        env.loginSteps = Except.ok () →
        env.loginVerified = true →
        env.navPost = Except.ok () →
        env.categoryStep = Except.ok () →
        env.fillFields = Except.error e →
        (post_listing env "njoftime.com" d c).1 = errResult "njoftime.com" e)
    ∧ (∀ (env : SiteEnv) (d : PropertyDetails) (c : Credentials)
        (e : String), env.navLogin = Except.ok () →
        c.missing = false →
        env.loginSteps = Except.ok () →
        env.loginVerified = true →
        env.navPost = Except.ok () →
        env.categoryStep = Except.ok () →
        env.fillFields = Except.ok () →
        env.captcha = Except.error e →
        (post_listing env "njoftime.com" d c).1 = errResult "njoftime.com" e)
    ∧ (∀ (env : SiteEnv) (d : PropertyDetails) (c : Credentials)
        (e : String), env.navLogin = Except.ok () →
        c.missing = false →
        env.loginSteps = Except.ok () →
        env.loginVerified = true →
        env.navPost = Except.ok () →
        env.categoryStep = Except.ok () →
        env.fillFields = Except.ok () →
        env.captcha = Except.ok true →
        env.submitStep = Except.error e →
        (post_listing env "njoftime.com" d c).1 = errResult "njoftime.com" e)
    ∧ (∀ (env : SiteEnv) (d : PropertyDetails) (c : Credentials)
        (e : String), env.navLogin = Except.ok () →
        c.missing = false →
        env.loginSteps = Except.ok () →
        env.loginVerified = true →
        env.navPost = Except.ok () →
        env.categoryStep = Except.ok () →
        env.fillFields = Except.ok () →
        env.captcha = Except.ok true →
        env.submitStep = Except.ok () →
        env.confirm = Except.error e →
        (post_listing env "njoftime.com" d c).1 = errResult "njoftime.com" e)
    ∧ (∀ (env : SiteEnv) (d : PropertyDetails) (c : Credentials)
        (e : String), env.navLogin = Except.ok () →
        c.missing = false →
        env.loginSteps = Except.ok () →
        env.loginVerified = true →
        env.navPost = Except.ok () →
        env.categoryStep = Except.ok () →
        env.fillFields = Except.ok () →
        env.captcha = Except.ok true →
        env.submitStep = Except.ok () →
        env.confirm = Except.ok true →
        env.urlExtract = Except.error e →
        (post_listing env "njoftime.com" d c).1 =
          { site := "njoftime.com", success := true,
            message := "Error: " ++ e, listing_url := none }))
    ∧ ((∀ (env : SiteEnv) (d : PropertyDetails) (c : Credentials)
        (e : String), env.navLogin = Except.error e →
        (post_listing env "merrjep.al" d c).1 = errResult "merrjep.al" e)
    ∧ (∀ (env : SiteEnv) (d : PropertyDetails) (c : Credentials)
        (e : String), env.navLogin = Except.ok () →
        c.missing = false →
        env.loginSteps = Except.ok () →
        env.loginVerified = true →
        env.navPost = Except.error e →
        (post_listing env "merrjep.al" d c).1 = errResult "merrjep.al" e)
    ∧ (∀ (env : SiteEnv) (d : PropertyDetails) (c : Credentials)
        (e : String), env.navLogin = Except.ok () →
        c.missing = false →
        env.loginSteps = Except.ok () →
        env.loginVerified = true →
        env.navPost = Except.ok () →
        env.categoryStep = Except.error e →
        (post_listing env "merrjep.al" d c).1 = errResult "merrjep.al" e)
    ∧ (∀ (env : SiteEnv) (d : PropertyDetails) (c : Credentials)
        (e : String), env.navLogin = Except.ok () →
        c.missing = false →
        env.loginSteps = Except.ok () →
        env.loginVerified = true →
        env.navPost = Except.ok () →
        env.categoryStep = Except.ok () →
        env.fillFields = Except.error e →
        (post_listing env "merrjep.al" d c).1 = errResult "merrjep.al" e)
    ∧ (∀ (env : SiteEnv) (d : PropertyDetails) (c : Credentials)
        (e : String), env.navLogin = Except.ok () →
        c.missing = false →
        env.loginSteps = Except.ok () →
        env.loginVerified = true →
        env.navPost = Except.ok () →
        env.categoryStep = Except.ok () →
        env.fillFields = Except.ok () →
        env.captcha = Except.error e →
        (post_listing env "merrjep.al" d c).1 = errResult "merrjep.al" e)
    ∧ (∀ (env : SiteEnv) (d : PropertyDetails) (c : Credentials)
        (e : String), env.navLogin = Except.ok () →
        c.missing = false →
        env.loginSteps = Except.ok () →
        env.loginVerified = true →
        env.navPost = Except.ok () →
        env.categoryStep = Except.ok () →
        env.fillFields = Except.ok () →
        env.captcha = Except.ok true →
        env.submitStep = Except.error e →
        (post_listing env "merrjep.al" d c).1 = errResult "merrjep.al" e)
    ∧ (∀ (env : SiteEnv) (d : PropertyDetails) (c : Credentials)
        (e : String), env.navLogin = Except.ok () →
        c.missing = false →
        env.loginSteps = Except.ok () →
        env.loginVerified = true →
        env.navPost = Except.ok () →
        env.categoryStep = Except.ok () →
        env.fillFields = Except.ok () →
        env.captcha = Except.ok true →
        env.submitStep = Except.ok () →
        env.confirm = Except.error e →
        (post_listing env "merrjep.al" d c).1 = errResult "merrjep.al" e)
    ∧ (∀ (env : SiteEnv) (d : PropertyDetails) (c : Credentials)
        (e : String), env.navLogin = Except.ok () →
        c.missing = false →
        env.loginSteps = Except.ok () →
        env.loginVerified = true →
        env.navPost = Except.ok () →
        env.categoryStep = Except.ok () →
        env.fillFields = Except.ok () →
        env.captcha = Except.ok true →
        env.submitStep = Except.ok () →
        env.confirm = Except.ok true →
        env.urlExtract = Except.error e →
        (post_listing env "merrjep.al" d c).1 =
          { site := "merrjep.al", success := true,
            message := "Error: " ++ e, listing_url := none }))
    ∧ ((∀ (env : SiteEnv) (d : PropertyDetails) (c : Credentials)
        (e : String), env.navLogin = Except.error e →
        (post_listing env "indomio.al" d c).1 = errResult "indomio.al" e)
    ∧ (∀ (env : SiteEnv) (d : PropertyDetails) (c : Credentials)
        (e : String), env.navLogin = Except.ok () →
        c.missing = false →
        env.loginSteps = Except.ok () →
        env.loginVerified = true →
        env.navPost = Except.error e →
        (post_listing env "indomio.al" d c).1 = errResult "indomio.al" e)
    ∧ (∀ (env : SiteEnv) (d : PropertyDetails) (c : Credentials)
        (e : String), env.navLogin = Except.ok () →
        c.missing = false →
        env.loginSteps = Except.ok () →
        env.loginVerified = true →
        env.navPost = Except.ok () →
        env.fillFields = Except.error e →
        (post_listing env "indomio.al" d c).1 = errResult "indomio.al" e)
    ∧ (∀ (env : SiteEnv) (d : PropertyDetails) (c : Credentials)
        (e : String), env.navLogin = Except.ok () →
        c.missing = false →
        env.loginSteps = Except.ok () →
        env.loginVerified = true →
        env.navPost = Except.ok () →
        env.fillFields = Except.ok () →
        env.captcha = Except.error e →
        (post_listing env "indomio.al" d c).1 = errResult "indomio.al" e)
    ∧ (∀ (env : SiteEnv) (d : PropertyDetails) (c : Credentials)
        (e : String), env.navLogin = Except.ok () →
        c.missing = false →
        env.loginSteps = Except.ok () →
        env.loginVerified = true →
        env.navPost = Except.ok () →
        env.fillFields = Except.ok () →
        env.captcha = Except.ok true →
        env.submitStep = Except.error e →
        (post_listing env "indomio.al" d c).1 = errResult "indomio.al" e)
    ∧ (∀ (env : SiteEnv) (d : PropertyDetails) (c : Credentials)
        (e : String), env.navLogin = Except.ok () →
        c.missing = false →
        env.loginSteps = Except.ok () →
        env.loginVerified = true →
        env.navPost = Except.ok () →
        env.fillFields = Except.ok () →
        env.captcha = Except.ok true →
        env.submitStep = Except.ok () →
        env.confirm = Except.error e →
        (post_listing env "indomio.al" d c).1 = errResult "indomio.al" e)
    ∧ (∀ (env : SiteEnv) (d : PropertyDetails) (c : Credentials)
        (e : String), env.navLogin = Except.ok () →
        c.missing = false →
        env.loginSteps = Except.ok () →
        env.loginVerified = true →
        env.navPost = Except.ok () →
        env.fillFields = Except.ok () →
        env.captcha = Except.ok true →
        env.submitStep = Except.ok () →
        env.confirm = Except.ok true →
        env.urlExtract = Except.error e →
        (post_listing env "indomio.al" d c).1 =
          { site := "indomio.al", success := true,
            message := "Error: " ++ e, listing_url := none }))
    ∧ (∀ (envOf : String → SiteEnv) (credsOf : String → Credentials)
        (d : PropertyDetails) (sites : List String),
        (postAll envOf credsOf d sites).length = sites.length) := by
  refine ⟨⟨?_, ?_, ?_, ?_, ?_, ?_, ?_, ?_⟩,
    ⟨?_, ?_, ?_, ?_, ?_, ?_, ?_, ?_⟩, ⟨?_, ?_, ?_, ?_, ?_, ?_, ?_⟩,
    ?_⟩ <;>
    · intros
      simp [post_listing, post_to_njoftime_com, post_to_merrjep_al,
        post_to_indomio_al, adapter_tail, login_helper, errResult, postAll,
        *]

/-- Witness for C2 (amended): a navigation failure on njoftime yields an
`"Error: ..."` failure result; a post-confirmation URL-extraction failure
on merrjep and on indomio leaves `success = true` with the error-text
message; and a two-site run still produces two results. -/
theorem adapter_exceptions_contained_witness :
    (post_listing { okEnv with navLogin := Except.error "net down" }
        "njoftime.com" sampleDetails sampleCreds).1 =
      errResult "njoftime.com" "net down"
    ∧ (post_listing urlCrashEnv "merrjep.al" sampleDetails sampleCreds).1 =
        { site := "merrjep.al", success := true,
          message := "Error: " ++ "connection lost", listing_url := none }
    ∧ (post_listing urlCrashEnv "indomio.al" sampleDetails sampleCreds).1 =
        { site := "indomio.al", success := true,
          message := "Error: " ++ "connection lost", listing_url := none }
    ∧ (postAll (fun _ => okEnv) (fun _ => sampleCreds) sampleDetails
        ["njoftime.com", "unknown.al"]).length = 2 :=
  ⟨adapter_exceptions_contained.1.1
      { okEnv with navLogin := Except.error "net down" }
      sampleDetails sampleCreds "net down" rfl,
   adapter_exceptions_contained.2.1.2.2.2.2.2.2.2 urlCrashEnv
      sampleDetails sampleCreds "connection lost" rfl rfl rfl rfl rfl rfl
      rfl rfl rfl rfl rfl,
   adapter_exceptions_contained.2.2.1.2.2.2.2.2.2 urlCrashEnv
      sampleDetails sampleCreds "connection lost" rfl rfl rfl rfl rfl rfl
      rfl rfl rfl rfl,
   adapter_exceptions_contained.2.2.2 (fun _ => okEnv)
      (fun _ => sampleCreds) sampleDetails ["njoftime.com", "unknown.al"]⟩

/-- C9 counterexample: a confirmed indomio success whose listing-URL
recovery (reading `current_url`, src 571) raises leaves `success = true`
with an `"Error: ..."` message, so `success = true` does not imply the
message `"Listing posted successfully"`. -/
theorem success_message_not_always_success_text :
    (post_listing urlCrashEnv2 "indomio.al" sampleDetails
        sampleCreds).1.success = true
    ∧ (post_listing urlCrashEnv2 "indomio.al" sampleDetails
        sampleCreds).1.message ≠ "Listing posted successfully" := by
  constructor
  · rfl
  · decide

/-- C9 (amended): every `post_listing` result is a `PostResult` record
(exactly the fields `site`, `success`, `message`, `listing_url`) whose
`site` field equals the requested identifier; `success = true` holds only
when the confirmation indicator was observed (and only for registered
sites), and then the message is exactly `"Listing posted successfully"`
unless the listing-URL extraction raised, in which case the message is
`"Error: <text>"` with `success` still `true`. -/
theorem post_result_shape (env : SiteEnv) (site : String)
    (d : PropertyDetails) (c : Credentials) :
    ((post_listing env site d c).1.site = site)
    ∧ ((post_listing env site d c).1.success = true →
        env.confirm = Except.ok true ∧
        (site = "njoftime.com" ∨ site = "merrjep.al" ∨
          site = "indomio.al") ∧
        (∀ u, env.urlExtract = Except.ok u →
          (post_listing env site d c).1.message =
              "Listing posted successfully" ∧
            (post_listing env site d c).1.listing_url = u) ∧
        (∀ e, env.urlExtract = Except.error e →
          (post_listing env site d c).1.message = "Error: " ++ e)) := by
  refine ⟨post_listing_site env site d c, ?_⟩
  unfold post_listing
  split
  · rename_i hs
    intro h
    have hf := njoftime_success_full env d c
      { site := site, success := false, message := "", listing_url := none }
      rfl h
    exact ⟨hf.1, Or.inl hs, hf.2.1, hf.2.2⟩
  · split
    · rename_i hs1 hs
      intro h
      have hf := merrjep_success_full env d c
        { site := site, success := false, message := "",
          listing_url := none } rfl h
      exact ⟨hf.1, Or.inr (Or.inl hs), hf.2.1, hf.2.2⟩
    · split
      · rename_i hs1 hs2 hs
        intro h
        have hf := indomio_success_full env d c
          { site := site, success := false, message := "",
            listing_url := none } rfl h
        exact ⟨hf.1, Or.inr (Or.inr hs), hf.2.1, hf.2.2⟩
      · intro h
        simp at h

/-- Witness for C9 (amended): a fully successful njoftime run has
`site = "njoftime.com"` and the success message with the extracted URL. -/
theorem post_result_shape_witness :
    (post_listing okEnv "njoftime.com" sampleDetails
        sampleCreds).1.site = "njoftime.com"
    ∧ (post_listing okEnv "njoftime.com" sampleDetails
        sampleCreds).1.message = "Listing posted successfully"
    ∧ (post_listing okEnv "njoftime.com" sampleDetails
        sampleCreds).1.listing_url = some "https://njoftime.com/listing/123" :=
  ⟨(post_result_shape okEnv "njoftime.com" sampleDetails sampleCreds).1,
   ((post_result_shape okEnv "njoftime.com" sampleDetails
        sampleCreds).2 rfl).2.2.1
      (some "https://njoftime.com/listing/123") rfl |>.1,
   ((post_result_shape okEnv "njoftime.com" sampleDetails
        sampleCreds).2 rfl).2.2.1
      (some "https://njoftime.com/listing/123") rfl |>.2⟩

/-- C8: evaluation at the failing input.  When `webdriver.Chrome()`
succeeds but `maximize_window()` (src 112) raises, `__enter__` re-raises
(src 117-119) with `self.driver` already assigned; Python then skips
`__exit__`, so `driver.quit()` is never invoked and the started driver
leaks — against the claimed release on every exit path.  By contrast,
once `__enter__` completes, even a body that raises gets the
`driverQuit`. -/
theorem session_leak_on_enter_failure :
    (poster_enter leakEnv).2.1 = true
    ∧ (poster_enter leakEnv).1 = Except.error "maximize failed"
    ∧ (with_poster leakEnv (Except.ok ())).2 = [SEvent.driverStarted]
    ∧ SEvent.driverQuit ∉ (with_poster leakEnv (Except.ok ())).2
    ∧ (with_poster { leakEnv with maximize := Except.ok () }
        (Except.error "posting blew up")).2 =
        [SEvent.driverStarted, SEvent.driverQuit] := by
  refine ⟨rfl, rfl, rfl, ?_, rfl⟩
  decide

end RealEstateSync
